import Mathlib

/-!
Verification of the offline-cache service worker and the wallet dashboard
state logic of the sabidemo repository.

The service worker model follows the network-first variant
(`CACHE_NAME = "sabiops-cache-v2"`), which the specification designates as
the canonical request-handling policy; the strict cache-first variant
(`sabiops-pwa-cache-v1`) is a historical alternative.

Modelling conventions:
* A stored response is a snapshot of status, response type and body.
* The cache storage is an association list from store name to store;
  a store is an association list from request URL to response
  (the Cache API keys GET entries by URL).
* The network is passed in explicitly: a fetch outcome is
  `Except String Response` (`.error` is a rejected fetch).
* JavaScript numbers that the claims touch are idealised as `Int`
  (all amounts in the source are integral).
-/

set_option autoImplicit false

namespace Sabidemo

/-- A response snapshot: HTTP status, response type
(`"basic"`, `"cors"`, `"opaque"`, ...) and body. -/
structure Response where
  status : Nat
  rtype : String
  body : String
  deriving DecidableEq, Repr

/-- A request as the worker sees it: HTTP method, absolute URL and mode
(`"navigate"` for page navigations). -/
structure Request where
  method : String
  url : String
  mode : String
  deriving DecidableEq, Repr

/-- One named cache store: URL-keyed response entries. -/
abbrev Store := List (String × Response)

/-- The cache storage: association of store names to stores. -/
abbrev CacheStorage := List (String × Store)

/-- `cache.match(request)` on a single store: first entry whose URL matches. -/
def Store.matchUrl (s : Store) (url : String) : Option Response :=
  (s.find? (fun e => e.1 == url)).map (fun e => e.2)

/-- `cache.put(request, response)`: delete any previously stored entry for
the URL, then store the new one (the Cache API put semantics). -/
def Store.put (s : Store) (url : String) (r : Response) : Store :=
  (s.filter (fun e => e.1 != url)) ++ [(url, r)]

/-- `caches.match(request)`: search every store in order for a match. -/
def cachesMatch (cs : CacheStorage) (url : String) : Option Response :=
  match cs with
  | [] => none
  | (_, s) :: rest =>
    match s.matchUrl url with
    | some r => some r
    | none => cachesMatch rest url

/-- The store registered under `name`, the empty store when absent
(`caches.open` creates missing stores). -/
def openStore (cs : CacheStorage) (name : String) : Store :=
  ((cs.find? (fun e => e.1 == name)).map (fun e => e.2)).getD []

/-- `caches.open(name)` followed by writing back store `s` under `name`:
replaces the entry of the (name-keyed) storage, adding it when absent. -/
def setStore : CacheStorage → String → Store → CacheStorage
  | [], name, s => [(name, s)]
  | e :: rest, name, s =>
    if e.1 == name then (name, s) :: rest else e :: setStore rest name s

/-- `caches.open(name).then(cache => cache.put(url, r))`. -/
def putIn (cs : CacheStorage) (name url : String) (r : Response) : CacheStorage :=
  setStore cs name ((openStore cs name).put url r)

/-- The guard `event.request.url.startsWith(self.location.origin)`: the
origin's characters are a prefix of the URL's characters. -/
def startsWithOrigin (origin url : String) : Bool :=
  origin.data.isPrefixOf url.data

/-- `const CACHE_NAME = "sabiops-cache-v2"`. -/
def CACHE_NAME : String := "sabiops-cache-v2"

/-- `const OFFLINE_URL = "/index.html"`. -/
def OFFLINE_URL : String := "/index.html"

/-- How a fetch event ends: either the listener returned without calling
`respondWith` (the browser handles the request itself), or `respondWith`
was called with a promise that settles to `.ok (some r)` (a response),
`.ok none` (no value) or `.error e` (a rejection). -/
inductive HandleResult where
  | passthrough
  | responded (outcome : Except String (Option Response))
  deriving Repr

/-- The fetch event listener of the canonical (network-first) service worker.
`origin` is `self.location.origin`, `net` the outcome `fetch(event.request)`
would have. Returns the settled `respondWith` value and the cache storage
after the handler (the fire-and-forget `cache.put` is taken as completed). -/
def handleFetch (origin : String) (r : Request) (net : Except String Response)
    (cs : CacheStorage) : HandleResult × CacheStorage :=
  if r.method ≠ "GET" then
    (.passthrough, cs)
  else if ¬ (startsWithOrigin origin r.url) then
    (.passthrough, cs)
  else
    let cached := cachesMatch cs r.url
    match net with
    | .ok networkResponse =>
      -- `if (!networkResponse || networkResponse.status !== 200 ||
      --     networkResponse.type !== "basic") return networkResponse;`
      if networkResponse.status ≠ 200 ∨ networkResponse.rtype ≠ "basic" then
        (.responded (.ok (some networkResponse)), cs)
      else
        (.responded (.ok (some networkResponse)),
          putIn cs CACHE_NAME r.url networkResponse)
    | .error _e =>
      match cached with
      | some c => (.responded (.ok (some c)), cs)
      | none =>
        if r.mode = "navigate" then
          (.responded (.ok (cachesMatch cs OFFLINE_URL)), cs)
        else
          -- inner catch rethrows `e`; the outer
          -- `fetchPromise.catch(() => cachedResponse)` then resolves
          -- with the absent cached value
          (.responded (.ok none), cs)

/-- What the page making the request observes, per the host's `respondWith`
semantics: no interception means the browser's own fetch; a promise settling
to anything other than a response (a rejection, or a value that is not a
`Response`) is surfaced as a network error. -/
inductive PageOutcome where
  | browserFetch
  | response (r : Response)
  | networkError
  deriving DecidableEq, Repr

/-- Interpretation of a `HandleResult` by the host dispatcher. -/
def pageOutcome (h : HandleResult) : PageOutcome :=
  match h with
  | .passthrough => .browserFetch
  | .responded (.ok (some r)) => .response r
  | .responded (.ok none) => .networkError
  | .responded (.error _) => .networkError

/-- The activate event listener: delete every store whose name is not
`CACHE_NAME`. -/
def activate (cs : CacheStorage) : CacheStorage :=
  cs.filter (fun e => e.1 == CACHE_NAME)

/-- The seed list `["/", OFFLINE_URL]` of the install handler. -/
def SEED_URLS : List String := ["/", OFFLINE_URL]

/-- `cache.addAll(urls)`: fetch every URL, fail if any fetch fails, put all
fetched responses into the store on success. -/
def addAll (net : String → Except String Response) (urls : List String)
    (s : Store) : Except String Store :=
  match urls with
  | [] => .ok s
  | u :: rest =>
    match net u with
    | .error e => .error e
    | .ok r => addAll net rest (s.put u r)

/-- The install event listener:
`caches.open(CACHE_NAME).then(cache => cache.addAll(["/", OFFLINE_URL]))`. -/
def install (net : String → Except String Response) (cs : CacheStorage) :
    Except String CacheStorage :=
  match addAll net SEED_URLS (openStore cs CACHE_NAME) with
  | .error e => .error e
  | .ok s => .ok (setStore cs CACHE_NAME s)

/-- The cacheability test in the words of the specification and of the
claim about the network branch: "success status, not an opaque cross-origin
response". Stated for comparison with the handler's own check
(`status === 200 && type === "basic"`). -/
def specCacheable (r : Response) : Bool :=
  r.status == 200 && r.rtype != "opaque"

/-! ### The dashboard application (`src/App.tsx`)

`App.tsx` contains two variants of the dashboard. The first derives the
displayed balance by reducing the transaction list; the second keeps the
balance as its own piece of state persisted under the storage key
`"balance"`. Browser built-ins are passed in explicitly:
`localStorage.getItem` as `getItem : String → Option String`,
`JSON.parse` as `jsonParse : String → Except String Json` (`.error` is a
thrown `SyntaxError`), and `Number` as `toNumber : String → Option Int`
(`none` is `NaN`; values are idealised as integers). -/

/-- The transaction record of the first `App.tsx` variant. The source field
`type` is rendered `txType`. -/
structure Transaction where
  id : String
  amount : Int
  timestamp : String
  txType : String
  status : String
  label : String
  deriving DecidableEq, Repr

/-- The transaction record of the second `App.tsx` variant. -/
structure Transaction2 where
  id : String
  amount : Int
  timestamp : String
  deriving DecidableEq, Repr

/-- `MOCK_HISTORY` of the first variant. -/
def MOCK_HISTORY : List Transaction :=
  [ { id := "TX1", amount := 450000, timestamp := "2023-08-01T10:00:00Z",
      txType := "deposit", status := "success", label := "Initial Deposit" },
    { id := "TX2", amount := -15000, timestamp := "2023-08-02T14:30:00Z",
      txType := "withdrawal", status := "success", label := "Domain Renewal" },
    { id := "TX3", amount := 120000, timestamp := "2023-08-05T09:15:00Z",
      txType := "deposit", status := "success", label := "Sales Revenue" },
    { id := "TX4", amount := -25000, timestamp := "2023-08-10T11:20:00Z",
      txType := "withdrawal", status := "success", label := "Hosting Fee" },
    { id := "TX5", amount := 750000, timestamp := "2023-08-15T16:45:00Z",
      txType := "deposit", status := "success", label := "Product Launch" } ]

/-- A JSON value as `JSON.parse` can produce it (numbers idealised as `Int`). -/
inductive Json where
  | null
  | bool (b : Bool)
  | num (n : Int)
  | str (s : String)
  | arr (elems : List Json)
  | obj (fields : List (String × Json))

/-- The result of loading the transaction list: either one of the
statically well-formed defaults, or the unvalidated value of the
`parsed as Transaction[]` cast (a raw JSON array). -/
inductive LoadedList (T : Type) where
  | typed (txs : List T)
  | raw (elems : List Json)

/-- `loadInitialTransactions` of the first variant: the mock history when
the key is absent or empty (`!stored`), when parsing throws, or when the
parsed value is not an array; otherwise the raw parsed array. -/
def loadInitialTransactions (getItem : String → Option String)
    (jsonParse : String → Except String Json) : LoadedList Transaction :=
  match getItem "transactions" with
  | none => .typed MOCK_HISTORY
  | some stored =>
    if stored = "" then .typed MOCK_HISTORY
    else
      match jsonParse stored with
      | .error _ => .typed MOCK_HISTORY
      | .ok (Json.arr xs) => .raw xs
      | .ok _ => .typed MOCK_HISTORY

/-- `loadInitialTransactions` of the second variant: as the first, with the
empty list in place of the mock history. -/
def loadInitialTransactions2 (getItem : String → Option String)
    (jsonParse : String → Except String Json) : LoadedList Transaction2 :=
  match getItem "transactions" with
  | none => .typed []
  | some stored =>
    if stored = "" then .typed []
    else
      match jsonParse stored with
      | .error _ => .typed []
      | .ok (Json.arr xs) => .raw xs
      | .ok _ => .typed []

/-- `loadInitialBalance` of the second variant: `0` when the key is absent
or empty (`!stored`) or when `Number(stored)` is `NaN`, else the number. -/
def loadInitialBalance (getItem : String → Option String)
    (toNumber : String → Option Int) : Int :=
  match getItem "balance" with
  | none => 0
  | some stored =>
    if stored = "" then 0
    else
      match toNumber stored with
      | none => 0
      | some n => n

/-- The `balance` memo of the first variant:
`transactions.reduce((acc, tx) => acc + tx.amount, 0)`. -/
def balance (transactions : List Transaction) : Int :=
  transactions.foldl (fun acc tx => acc + tx.amount) 0

/-- Sum of the amounts of a first-variant transaction list. -/
def sumAmounts (txs : List Transaction) : Int :=
  (txs.map Transaction.amount).sum

/-- Sum of the amounts of a second-variant transaction list. -/
def sumAmounts2 (txs : List Transaction2) : Int :=
  (txs.map Transaction2.amount).sum

/-- The payment-success callback of `handleSubmitDeposit` in the second
variant: `newBalance = balance + numericAmount` and
`updatedTransactions = [newTransaction, ...transactions]`; both values are
then stored (`saveBalance`, `saveTransactions`) and set as state. -/
def handleSubmitDepositCallback2 (bal : Int) (transactions : List Transaction2)
    (numericAmount : Int) (reference timestamp : String) :
    Int × List Transaction2 :=
  (bal + numericAmount,
   { id := reference, amount := numericAmount, timestamp := timestamp }
     :: transactions)

/-! ### Concrete inputs used by witnesses and counterexamples -/

/-- A worker origin for concrete runs. -/
def origin0 : String := "https://sabiops.example"

/-- A same-origin GET asset request (not a navigation). -/
def assetReq : Request :=
  { method := "GET", url := "https://sabiops.example/app.js", mode := "cors" }

/-- A same-origin GET navigation request. -/
def navReq : Request :=
  { method := "GET", url := "https://sabiops.example/dashboard",
    mode := "navigate" }

/-- A non-GET request. -/
def postReq : Request :=
  { method := "POST", url := "https://sabiops.example/api", mode := "cors" }

/-- A fresh basic 200 response. -/
def basicResp : Response := { status := 200, rtype := "basic", body := "new" }

/-- A 200 response of type `"cors"`: not opaque, yet not `"basic"`. -/
def corsResp : Response := { status := 200, rtype := "cors", body := "cdn" }

/-- A previously cached response. -/
def cachedResp : Response := { status := 200, rtype := "basic", body := "old" }

/-- A cached copy of the offline page. -/
def offlineResp : Response :=
  { status := 200, rtype := "basic", body := "<html>offline</html>" }

/-- A cache storage whose current store holds the offline page and the
asset request's URL. -/
def cs0 : CacheStorage :=
  [(CACHE_NAME, [(OFFLINE_URL, offlineResp),
                 ("https://sabiops.example/app.js", cachedResp)])]

/-- A same-origin GET asset request whose URL is cached nowhere. -/
def assetReq2 : Request :=
  { method := "GET", url := "https://sabiops.example/data.json",
    mode := "cors" }

/-- A cache storage whose current store holds only the offline page. -/
def cs1 : CacheStorage :=
  [(CACHE_NAME, [(OFFLINE_URL, offlineResp)])]

/-- A seed network where both seed URLs resolve. -/
def seedNet : String → Except String Response :=
  fun u =>
    if u = "/" then .ok { status := 200, rtype := "basic", body := "root" }
    else if u = "/index.html" then .ok offlineResp
    else .error "404"

/-- A storage snapshot holding only a stored balance of `"5"`. -/
def storageBalanceOnly : String → Option String :=
  fun k => if k = "balance" then some "5" else none

/-- `Number` on the strings the concrete runs use: `"5"` is `5`, everything
else is `NaN`. -/
def toNumber0 : String → Option Int :=
  fun s => if s = "5" then some 5 else none

/-- A `JSON.parse` that throws on every input. -/
def jsonParseFail : String → Except String Json :=
  fun _ => .error "SyntaxError"

/-- A storage snapshot with malformed transactions JSON and a non-numeric
balance string. -/
def storageBad : String → Option String :=
  fun k =>
    if k = "transactions" then some "not valid json"
    else if k = "balance" then some "abc" else none

/-! ### Helper lemmas -/

/-- `put` makes the written entry the one a later lookup of its URL finds. -/
theorem matchUrl_put (s : Store) (url : String) (r : Response) :
    Store.matchUrl (Store.put s url r) url = some r := by
  induction s with
  | nil => simp [Store.put, Store.matchUrl]
  | cons e es ih =>
    by_cases h : e.1 = url
    · simp only [Store.put, List.filter_cons] at ih ⊢
      simp [h, Store.matchUrl]
    · simp only [Store.put, List.filter_cons] at ih ⊢
      simp [Store.matchUrl, h, List.find?_cons]

/-- Searching for one URL among the entries another URL's `put` removed
finds nothing it would not have found before. -/
theorem find?_filter_key (l : Store) (url url' : String) (h : url ≠ url') :
    List.find? (fun e => e.1 == url) (l.filter (fun e => e.1 != url'))
      = List.find? (fun e => e.1 == url) l := by
  induction l with
  | nil => rfl
  | cons e es ih =>
    by_cases h1 : e.1 = url'
    · have h2 : e.1 ≠ url := by rw [h1]; exact Ne.symm h
      simp [List.filter_cons, h1, List.find?_cons, h2, Ne.symm h, ih]
    · by_cases h2 : e.1 = url
      · simp [List.filter_cons, h1, List.find?_cons, h2, h]
      · simp [List.filter_cons, h1, List.find?_cons, h2, ih]

/-- Appending an entry for a different URL does not change a lookup. -/
theorem find?_append_miss (l : Store) (url url' : String) (r : Response)
    (h : url ≠ url') :
    List.find? (fun e => e.1 == url) (l ++ [(url', r)])
      = List.find? (fun e => e.1 == url) l := by
  induction l with
  | nil => simp [List.find?_cons, Ne.symm h]
  | cons e es ih =>
    by_cases h1 : e.1 = url
    · simp [List.find?_cons, h1]
    · simp [List.find?_cons, h1, ih]

/-- `put` leaves lookups of other URLs unchanged. -/
theorem matchUrl_put_ne (s : Store) (url url' : String) (r : Response)
    (h : url ≠ url') :
    Store.matchUrl (Store.put s url' r) url = Store.matchUrl s url := by
  unfold Store.put Store.matchUrl
  rw [find?_append_miss _ _ _ _ h, find?_filter_key _ _ _ h]

/-- Opening the store just written back yields that store. -/
theorem openStore_setStore (cs : CacheStorage) (name : String) (s : Store) :
    openStore (setStore cs name s) name = s := by
  induction cs with
  | nil => simp [setStore, openStore]
  | cons e rest ih =>
    by_cases h : e.1 = name
    · simp [setStore, openStore, h]
    · simpa [setStore, openStore, h, List.find?_cons] using ih

/-- A storage that does not know a name keeps no entry under it. -/
theorem filter_name_eq_nil (name : String) (cs : CacheStorage)
    (h : name ∉ cs.map Prod.fst) :
    cs.filter (fun e => e.1 == name) = [] := by
  induction cs with
  | nil => rfl
  | cons e es ih =>
    simp only [List.map_cons, List.mem_cons, not_or] at h
    simp [List.filter_cons, Ne.symm h.1, ih h.2]

/-- Folding amounts from an accumulator sums them. -/
theorem foldl_amount_eq (txs : List Transaction) (a : Int) :
    txs.foldl (fun acc tx => acc + tx.amount) a = a + sumAmounts txs := by
  induction txs generalizing a with
  | nil => simp [sumAmounts]
  | cons t ts ih =>
    simp only [List.foldl_cons, ih, sumAmounts, List.map_cons, List.sum_cons]
    ring

/-! ### The claims -/

/-- C1: for every same-origin GET request for which both a cached entry and
a successful network response are available, the fetch handler responds
with the network response, not the cached one: the cache is never the
primary source when the network fetch succeeds. -/
theorem c1_network_preferred_over_cache (origin : String) (r : Request)
    (nr c : Response) (cs : CacheStorage)
    (hm : r.method = "GET") (ho : startsWithOrigin origin r.url = true)
    (_hc : cachesMatch cs r.url = some c) :
    (handleFetch origin r (.ok nr) cs).1 = .responded (.ok (some nr)) ∧
    pageOutcome (handleFetch origin r (.ok nr) cs).1 = .response nr := by
  have hres : (handleFetch origin r (.ok nr) cs).1
      = .responded (.ok (some nr)) := by
    simp [handleFetch, hm, ho]
    split <;> rfl
  exact ⟨hres, by rw [hres]; rfl⟩

/-- C1 witness: a concrete cached asset whose network refetch succeeds is
answered from the network. -/
theorem c1_network_preferred_over_cache_witness :
    (handleFetch origin0 assetReq (.ok basicResp) cs0).1
      = .responded (.ok (some basicResp)) ∧
    pageOutcome (handleFetch origin0 assetReq (.ok basicResp) cs0).1
      = .response basicResp :=
  c1_network_preferred_over_cache origin0 assetReq basicResp cachedResp cs0
    rfl (by decide) rfl

/-- C2: a same-origin GET navigation whose network fetch fails and whose
URL is not cached is answered with the offline fallback page stored under
`/index.html`, not with an error. -/
theorem c2_navigation_offline_fallback (origin : String) (r : Request)
    (e : String) (cs : CacheStorage) (fallback : Response)
    (hm : r.method = "GET") (ho : startsWithOrigin origin r.url = true)
    (hnav : r.mode = "navigate") (hmiss : cachesMatch cs r.url = none)
    (hoff : cachesMatch cs OFFLINE_URL = some fallback) :
    (handleFetch origin r (.error e) cs).1
      = .responded (.ok (some fallback)) ∧
    pageOutcome (handleFetch origin r (.error e) cs).1
      = .response fallback := by
  have hres : (handleFetch origin r (.error e) cs).1
      = .responded (.ok (some fallback)) := by
    simp [handleFetch, hm, ho, hmiss, hnav, hoff]
  exact ⟨hres, by rw [hres]; rfl⟩

/-- C2 witness: a concrete offline navigation to an uncached URL resolves
to the cached offline page. -/
theorem c2_navigation_offline_fallback_witness :
    (handleFetch origin0 navReq (.error "net down") cs1).1
      = .responded (.ok (some offlineResp)) ∧
    pageOutcome (handleFetch origin0 navReq (.error "net down") cs1).1
      = .response offlineResp :=
  c2_navigation_offline_fallback origin0 navReq "net down" cs1 offlineResp
    rfl (by decide) rfl rfl rfl

/-- C3: a same-origin GET request that was previously stored is answered
with the stored response when the network fetch fails; the storage is left
unchanged. -/
theorem c3_cached_served_when_network_fails (origin : String) (r : Request)
    (e : String) (cs : CacheStorage) (c : Response)
    (hm : r.method = "GET") (ho : startsWithOrigin origin r.url = true)
    (hc : cachesMatch cs r.url = some c) :
    handleFetch origin r (.error e) cs = (.responded (.ok (some c)), cs) := by
  simp [handleFetch, hm, ho, hc]

/-- C3 witness: a concrete cached asset is served from the cache when the
network is down. -/
theorem c3_cached_served_when_network_fails_witness :
    handleFetch origin0 assetReq (.error "net down") cs0
      = (.responded (.ok (some cachedResp)), cs0) :=
  c3_cached_served_when_network_fails origin0 assetReq "net down" cs0
    cachedResp rfl (by decide) rfl

/-- C4: non-GET requests and cross-origin requests are passed through: the
listener returns without responding, and the cache storage afterwards
equals the cache storage before. -/
theorem c4_passthrough_unintercepted (origin : String) (r : Request)
    (net : Except String Response) (cs : CacheStorage)
    (h : r.method ≠ "GET" ∨ startsWithOrigin origin r.url = false) :
    handleFetch origin r net cs = (.passthrough, cs) := by
  rcases h with h | h
  · simp [handleFetch, h]
  · by_cases hm : r.method = "GET"
    · simp [handleFetch, hm, h]
    · simp [handleFetch, hm]

/-- C4 witness: a concrete POST request is not intercepted and leaves the
storage untouched. -/
theorem c4_passthrough_unintercepted_witness :
    handleFetch origin0 postReq (.ok basicResp) cs0 = (.passthrough, cs0) :=
  c4_passthrough_unintercepted origin0 postReq (.ok basicResp) cs0
    (Or.inl (by decide))

/-- C5: after activation, enumerating the store names yields exactly the
current version's name: every stale store is deleted, only `CACHE_NAME`
remains (the storage is name-keyed, so names are distinct, and the current
store exists because install created it). -/
theorem c5_activate_exactly_current_store (cs : CacheStorage)
    (hnd : (cs.map Prod.fst).Nodup) (hmem : CACHE_NAME ∈ cs.map Prod.fst) :
    (activate cs).map Prod.fst = [CACHE_NAME] := by
  induction cs with
  | nil => simp at hmem
  | cons e es ih =>
    rw [List.map_cons, List.nodup_cons] at hnd
    rw [List.map_cons, List.mem_cons] at hmem
    by_cases h : e.1 = CACHE_NAME
    · have hnil : es.filter (fun x => x.1 == CACHE_NAME) = [] :=
        filter_name_eq_nil CACHE_NAME es (h ▸ hnd.1)
      simp [activate, List.filter_cons, h, hnil]
    · rcases hmem with hmem | hmem
      · exact absurd hmem.symm h
      · have hih := ih hnd.2 hmem
        simpa [activate, List.filter_cons, h] using hih

/-- C5 witness: with the stale `v1` store coexisting with the current `v2`
store, activation leaves exactly the current name. -/
theorem c5_activate_exactly_current_store_witness :
    (activate [("sabiops-pwa-cache-v1", []),
               (CACHE_NAME, [(OFFLINE_URL, offlineResp)])]).map Prod.fst
      = [CACHE_NAME] :=
  c5_activate_exactly_current_store
    [("sabiops-pwa-cache-v1", []), (CACHE_NAME, [(OFFLINE_URL, offlineResp)])]
    (by decide) (by decide)

/-- C6 counterexample: the response `corsResp` has a success status and is
not opaque, so the claim calls it cacheable and asserts a copy is stored;
the handler, whose test is `type === "basic"`, returns it without storing
anything: the storage is unchanged, the URL still unmatched. -/
theorem c6_counterexample_cors_not_stored :
    specCacheable corsResp = true ∧
    handleFetch origin0 assetReq2 (.ok corsResp) cs1
      = (.responded (.ok (some corsResp)), cs1) ∧
    cachesMatch cs1 assetReq2.url = none :=
  ⟨rfl, rfl, rfl⟩

/-- C6 (amended): for a same-origin GET request with a successful network
response, a copy is stored exactly when the response has status 200 and
type `"basic"`; any other response (non-200, opaque, or any other non-basic
type such as `"cors"`) is returned to the caller without being stored. -/
theorem c6_cacheability_policy (origin : String) (r : Request)
    (nr : Response) (cs : CacheStorage)
    (hm : r.method = "GET") (ho : startsWithOrigin origin r.url = true) :
    (nr.status = 200 ∧ nr.rtype = "basic" →
      handleFetch origin r (.ok nr) cs
        = (.responded (.ok (some nr)), putIn cs CACHE_NAME r.url nr) ∧
      Store.matchUrl (openStore (putIn cs CACHE_NAME r.url nr) CACHE_NAME)
          r.url = some nr) ∧
    (¬ (nr.status = 200 ∧ nr.rtype = "basic") →
      handleFetch origin r (.ok nr) cs
        = (.responded (.ok (some nr)), cs)) := by
  constructor
  · rintro ⟨h1, h2⟩
    refine ⟨by simp [handleFetch, hm, ho, h1, h2], ?_⟩
    unfold putIn
    rw [openStore_setStore]
    exact matchUrl_put _ _ _
  · intro h
    by_cases h1 : nr.status = 200
    · by_cases h2 : nr.rtype = "basic"
      · exact absurd ⟨h1, h2⟩ h
      · simp [handleFetch, hm, ho, h1, h2]
    · simp [handleFetch, hm, ho, h1]

/-- C6 witness: a concrete basic 200 response is stored under the request
URL and returned. -/
theorem c6_cacheability_policy_witness :
    handleFetch origin0 assetReq2 (.ok basicResp) cs1
      = (.responded (.ok (some basicResp)),
         putIn cs1 CACHE_NAME assetReq2.url basicResp) ∧
    Store.matchUrl (openStore (putIn cs1 CACHE_NAME assetReq2.url basicResp)
        CACHE_NAME) assetReq2.url = some basicResp :=
  (c6_cacheability_policy origin0 assetReq2 basicResp cs1 rfl (by decide)).1
    ⟨rfl, rfl⟩

/-- C7: install opens the current version's store and seeds it with `/` and
`/index.html`; a failing seed fetch fails the install as a whole, and after
a successful install both seed URLs are matched in the store. -/
theorem c7_install_seeds (net : String → Except String Response)
    (cs : CacheStorage) :
    (∀ e, net "/" = .error e → install net cs = .error e) ∧
    (∀ r1 e, net "/" = .ok r1 → net OFFLINE_URL = .error e →
      install net cs = .error e) ∧
    (∀ r1 r2, net "/" = .ok r1 → net OFFLINE_URL = .ok r2 →
      ∃ cs', install net cs = .ok cs' ∧
        (openStore cs' CACHE_NAME).matchUrl "/" = some r1 ∧
        (openStore cs' CACHE_NAME).matchUrl OFFLINE_URL = some r2) := by
  refine ⟨?_, ?_, ?_⟩
  · intro e he
    simp [install, addAll, SEED_URLS, he]
  · intro r1 e h1 h2
    simp [install, addAll, SEED_URLS, h1, h2]
  · intro r1 r2 h1 h2
    refine ⟨setStore cs CACHE_NAME
        (((openStore cs CACHE_NAME).put "/" r1).put OFFLINE_URL r2),
      ?_, ?_, ?_⟩
    · simp [install, addAll, SEED_URLS, h1, h2]
    · rw [openStore_setStore]
      rw [matchUrl_put_ne _ _ _ _ (by decide : ("/" : String) ≠ OFFLINE_URL)]
      exact matchUrl_put _ _ _
    · rw [openStore_setStore]
      exact matchUrl_put _ _ _

/-- C7 witness: installing over an empty storage with a network that serves
both seeds leaves both seed URLs matched in the current store. -/
theorem c7_install_seeds_witness :
    ∃ cs', install seedNet [] = .ok cs' ∧
      (openStore cs' CACHE_NAME).matchUrl "/"
        = some { status := 200, rtype := "basic", body := "root" } ∧
      (openStore cs' CACHE_NAME).matchUrl OFFLINE_URL = some offlineResp :=
  (c7_install_seeds seedNet []).2.2 _ offlineResp rfl rfl

/-- C8: for a same-origin GET request that is not a navigation, when the
network fetch fails and no cache entry exists, the failure reaches the
caller: the handler produces no substitute response (its promise resolves
with the absent cached value, which `respondWith` surfaces as a network
error to the page) and the storage is unchanged. -/
theorem c8_failure_reaches_caller (origin : String) (r : Request)
    (e : String) (cs : CacheStorage)
    (hm : r.method = "GET") (ho : startsWithOrigin origin r.url = true)
    (hnav : r.mode ≠ "navigate") (hmiss : cachesMatch cs r.url = none) :
    handleFetch origin r (.error e) cs = (.responded (.ok none), cs) ∧
    pageOutcome (handleFetch origin r (.error e) cs).1 = .networkError := by
  have hres : handleFetch origin r (.error e) cs
      = (.responded (.ok none), cs) := by
    simp [handleFetch, hm, ho, hmiss, hnav]
  exact ⟨hres, by simp [hres, pageOutcome]⟩

/-- C8 witness: a concrete uncached non-navigation request fails through to
the caller when the network is down. -/
theorem c8_failure_reaches_caller_witness :
    handleFetch origin0 assetReq2 (.error "net down") cs1
      = (.responded (.ok none), cs1) ∧
    pageOutcome (handleFetch origin0 assetReq2 (.error "net down") cs1).1
      = .networkError :=
  c8_failure_reaches_caller origin0 assetReq2 "net down" cs1 rfl (by decide)
    (by decide) rfl

/-- C9 counterexample: in the second `App.tsx` variant the displayed
balance is the independently stored value under the `"balance"` key. With a
stored balance of `"5"` and no stored transactions, the loaded balance is 5
while the sum of the amounts of the loaded (empty) transaction list is 0:
the displayed balance is not the reduction of the transaction list. -/
theorem c9_counterexample_stored_balance :
    loadInitialBalance storageBalanceOnly toNumber0 = 5 ∧
    loadInitialTransactions2 storageBalanceOnly jsonParseFail
      = LoadedList.typed ([] : List Transaction2) ∧
    sumAmounts2 [] = 0 ∧ (5 : Int) ≠ 0 :=
  ⟨rfl, rfl, rfl, by decide⟩

/-- C9 (amended): the first variant derives the displayed balance by
reduction — for every transaction list it equals the sum of the amounts,
and no separate balance is kept. The second variant instead maintains the
balance as an independently stored value: a successful deposit adds the
deposited amount to it, which keeps it equal to the transaction sum when
that agreement already held, but the value is not derived from the list. -/
theorem c9_balance_reduction (txs : List Transaction) (bal amt : Int)
    (txs2 : List Transaction2) (ref ts : String) :
    balance txs = sumAmounts txs ∧
    (handleSubmitDepositCallback2 bal txs2 amt ref ts).1 = bal + amt ∧
    (bal = sumAmounts2 txs2 →
      (handleSubmitDepositCallback2 bal txs2 amt ref ts).1
        = sumAmounts2 (handleSubmitDepositCallback2 bal txs2 amt ref ts).2) := by
  refine ⟨?_, rfl, ?_⟩
  · simpa [balance] using foldl_amount_eq txs 0
  · intro h
    simp only [handleSubmitDepositCallback2, sumAmounts2, List.map_cons,
      List.sum_cons] at h ⊢
    rw [h]
    ring

/-- C9 witness: the mock history reduces to its amount sum, and a concrete
deposit of 5000 onto an agreeing state preserves the sum. -/
theorem c9_balance_reduction_witness :
    balance MOCK_HISTORY = sumAmounts MOCK_HISTORY ∧
    (handleSubmitDepositCallback2 0 [] 5000 "REV-1"
        "2023-08-20T00:00:00Z").1 = 0 + 5000 ∧
    (handleSubmitDepositCallback2 0 [] 5000 "REV-1"
        "2023-08-20T00:00:00Z").1
      = sumAmounts2 (handleSubmitDepositCallback2 0 [] 5000 "REV-1"
          "2023-08-20T00:00:00Z").2 := by
  have h := c9_balance_reduction MOCK_HISTORY 0 5000 [] "REV-1"
    "2023-08-20T00:00:00Z"
  exact ⟨h.1, h.2.1, h.2.2 rfl⟩

/-- C10: loading persisted state is total at the public interface. An
absent `"transactions"` key, a value whose parse throws, or a parse result
that is not an array yields the mock history in the first variant and the
empty list in the second; an absent `"balance"` key or a non-numeric
balance string yields 0. Both loaders are total Lean functions: the one
step that can throw, `JSON.parse`, is modelled by `Except` and consumed by
the try/catch these equations traverse, so no failure escapes. -/
theorem c10_loaders_total (getItem : String → Option String)
    (jsonParse : String → Except String Json)
    (toNumber : String → Option Int) :
    (getItem "transactions" = none →
      loadInitialTransactions getItem jsonParse = .typed MOCK_HISTORY ∧
      loadInitialTransactions2 getItem jsonParse = .typed []) ∧
    (∀ s e, getItem "transactions" = some s → jsonParse s = .error e →
      loadInitialTransactions getItem jsonParse = .typed MOCK_HISTORY ∧
      loadInitialTransactions2 getItem jsonParse = .typed []) ∧
    (∀ s j, getItem "transactions" = some s → jsonParse s = .ok j →
      (∀ xs, j ≠ Json.arr xs) →
      loadInitialTransactions getItem jsonParse = .typed MOCK_HISTORY ∧
      loadInitialTransactions2 getItem jsonParse = .typed []) ∧
    (getItem "balance" = none → loadInitialBalance getItem toNumber = 0) ∧
    (∀ s, getItem "balance" = some s → toNumber s = none →
      loadInitialBalance getItem toNumber = 0) := by
  refine ⟨?_, ?_, ?_, ?_, ?_⟩
  · intro h
    exact ⟨by simp [loadInitialTransactions, h],
      by simp [loadInitialTransactions2, h]⟩
  · intro s e hg hp
    by_cases hs : s = ""
    · exact ⟨by simp [loadInitialTransactions, hg, hs],
        by simp [loadInitialTransactions2, hg, hs]⟩
    · exact ⟨by simp [loadInitialTransactions, hg, hs, hp],
        by simp [loadInitialTransactions2, hg, hs, hp]⟩
  · intro s j hg hp hj
    by_cases hs : s = ""
    · exact ⟨by simp [loadInitialTransactions, hg, hs],
        by simp [loadInitialTransactions2, hg, hs]⟩
    · cases j with
      | arr elems => exact absurd rfl (hj elems)
      | null =>
        exact ⟨by simp [loadInitialTransactions, hg, hs, hp],
          by simp [loadInitialTransactions2, hg, hs, hp]⟩
      | bool b =>
        exact ⟨by simp [loadInitialTransactions, hg, hs, hp],
          by simp [loadInitialTransactions2, hg, hs, hp]⟩
      | num n =>
        exact ⟨by simp [loadInitialTransactions, hg, hs, hp],
          by simp [loadInitialTransactions2, hg, hs, hp]⟩
      | str s2 =>
        exact ⟨by simp [loadInitialTransactions, hg, hs, hp],
          by simp [loadInitialTransactions2, hg, hs, hp]⟩
      | obj fields =>
        exact ⟨by simp [loadInitialTransactions, hg, hs, hp],
          by simp [loadInitialTransactions2, hg, hs, hp]⟩
  · intro h
    simp [loadInitialBalance, h]
  · intro s hg hn
    by_cases hs : s = ""
    · simp [loadInitialBalance, hg, hs]
    · simp [loadInitialBalance, hg, hs, hn]

/-- C10 witness: a storage holding malformed transactions JSON and a
non-numeric balance string loads the defaults in both variants. -/
theorem c10_loaders_total_witness :
    loadInitialTransactions storageBad jsonParseFail = .typed MOCK_HISTORY ∧
    loadInitialTransactions2 storageBad jsonParseFail = .typed [] ∧
    loadInitialBalance storageBad toNumber0 = 0 := by
  have h := c10_loaders_total storageBad jsonParseFail toNumber0
  exact ⟨(h.2.1 "not valid json" "SyntaxError" rfl rfl).1,
    (h.2.1 "not valid json" "SyntaxError" rfl rfl).2,
    h.2.2.2.2 "abc" rfl rfl⟩

end Sabidemo
